import Mathlib

/-
Verification development for the icon generator (generate_icon.py).

The program draws small square RGBA rasters: a white filled circle, a
centered two-letter label chosen by a descending font-size search, an
optional red diagonal overlay line, and writes the results as PNG files.

Shallow embedding: a Canvas records its pixel size and the ordered list
of drawing commands issued against it; a separate rasterizer interprets
the commands pixel by pixel.  The external imaging library is modelled
by the command interpreters (ellipse and line coverage follow the
documented inclusive bounding-box / thick-segment semantics) and by a
FontEnv, which abstracts the font engine: text measurement (which can
fail), text drawing (which can fail), and glyph pixel coverage.
Python floats appear only in the expression int(size * 1.1) and in the
exact halving used for centering; both are modelled exactly (see
intTimes11; the text command stores twice the draw origin so that the
exact half-integer float coordinates stay integral, and the coverage
inequalities are cleared of denominators for the same reason).
-/

/-- RGBA color, each channel 0..255. -/
abbrev Color := ℕ × ℕ × ℕ × ℕ

/-- Alpha channel of a color. -/
def alpha (c : Color) : ℕ := c.2.2.2

/-- Fully transparent background pixel of a fresh RGBA canvas. -/
def colorTransparent : Color := (0, 0, 0, 0)

/-- The fill color named white in the source. -/
def colorWhite : Color := (255, 255, 255, 255)

/-- Text fill color 0d6efd from the source. -/
def colorFill : Color := (13, 110, 253, 255)

/-- Text stroke color 0a58ca from the source. -/
def colorStroke : Color := (10, 88, 202, 255)

/-- Overlay line color dc3545 from the source. -/
def colorLine : Color := (220, 53, 69, 255)

/-- A text bounding box as returned by draw.textbbox: left, top, right, bottom. -/
structure BBox where
  x0 : ℤ
  y0 : ℤ
  x1 : ℤ
  y1 : ℤ
deriving DecidableEq

/-- Joint style of a drawn line. -/
inductive Joint where
  | curve
deriving DecidableEq

/-- One drawing command issued against a canvas, mirroring the calls the
source makes on its drawing context. -/
inductive DrawCmd where
  | ellipse (x0 y0 x1 y1 : ℤ) (fill : Color)
  | text (x2 y2 : ℤ) (str : String) (fill : Color) (fontSize : ℕ)
      (strokeWidth : ℕ) (strokeFill : Color)
  | line (x0 y0 x1 y1 : ℤ) (fill : Color) (width : ℕ) (joint : Joint)
deriving DecidableEq

/-- A canvas: its square pixel size and the drawing commands applied to it,
in order. -/
structure Canvas where
  size : ℕ
  cmds : List DrawCmd
deriving DecidableEq

/-- The external font engine. measure models draw.textbbox on the string EZ
for the font loaded at the given requested size (the Arial-or-default
fallback is folded into the environment, since the inner try/except makes
loading itself total); it can fail. drawText models whether draw.text
raises for that font (some e = the raised error). cover models glyph pixel
coverage of the drawn text: given font size, twice the draw origin and a
pixel, none = pixel untouched, some true = fill pixel, some false =
stroke pixel. -/
structure FontEnv where
  measure : ℕ → Except String BBox
  drawText : ℕ → Option String
  cover : ℕ → ℤ → ℤ → ℕ → ℕ → Option Bool

/-- Background padding from create_icon_base: max(1, size // 16). -/
def bgPadding (size : ℕ) : ℕ := max 1 (size / 16)

/-- create_icon_base: fresh transparent canvas with a white circle drawn on
the inclusive bounding box [(p, p), (size - p, size - p)]. -/
def create_icon_base (size : ℕ) : Canvas :=
  ⟨size, [DrawCmd.ellipse (bgPadding size) (bgPadding size)
      ((size : ℤ) - (bgPadding size : ℤ)) ((size : ℤ) - (bgPadding size : ℤ))
      colorWhite]⟩

/-- Models the Python expression int(size * 1.1).  The IEEE-754 double
nearest 1.1 exceeds 11/10 by (2/5) * 2^(-52); the rounded double product
size * 1.1 therefore truncates to the same integer as the exact rational
11 * size / 10 for every size this program can meaningfully handle
(the floors agree for all size below 2^45, far beyond any raster size). -/
def intTimes11 (size : ℕ) : ℕ := 11 * size / 10

/-- Candidate font sizes tried by the loop for font_size in
range(int(size * 1.1), 4, -1): the descending list from int(size * 1.1)
down to 5 inclusive, empty when the start is below 5. -/
def candidates (size : ℕ) : List ℕ :=
  (List.range' 5 (intTimes11 size - 4)).reverse

/-- Text padding from the loop body: max(1, size // 10). -/
def textPadding (size : ℕ) : ℕ := max 1 (size / 10)

/-- The fit test: measured width and height both at most size - 2 * padding
(Python int arithmetic, hence over ℤ). -/
def fits (size : ℕ) (bb : BBox) : Bool :=
  decide (bb.x1 - bb.x0 ≤ (size : ℤ) - 2 * (textPadding size : ℤ)) &&
  decide (bb.y1 - bb.y0 ≤ (size : ℤ) - 2 * (textPadding size : ℤ))

/-- Error raised when the loop body never ran and the code below the loop
reads the loop variables (Python NameError on text_width). -/
def nameErrorMsg : String := "NameError: text_width is not defined"

/-- The descending search loop.  Each iteration measures the text (a
measurement failure propagates, to be caught by the outer handler) and
stops at the first candidate that fits; if no candidate fits the loop
falls through with the last iteration values; if there are no candidates
at all, the first later use of the loop variables raises. -/
def fitLoop (env : FontEnv) (size : ℕ) : List ℕ → Except String (ℕ × BBox)
  | [] => .error nameErrorMsg
  | fs :: rest =>
    match env.measure fs with
    | .error e => .error e
    | .ok bb =>
      if fits size bb then .ok (fs, bb)
      else
        match rest with
        | [] => .ok (fs, bb)
        | _ :: _ => fitLoop env size rest

/-- Body of the try block of create_regular_icon after the base canvas is
made: run the fit loop, compute the centered position, then draw; a draw
failure propagates to the handler.  The Python float
x = (size - text_width) / 2 - text_bbox[0] is a half-integer and exact;
the command stores its doubled value x2 = size - w - 2 * bbox.x0 (and
likewise y2), so 2 * x = x2 holds exactly.  On success the resulting
command is returned. -/
def textStage (env : FontEnv) (size : ℕ) : Except String DrawCmd :=
  match fitLoop env size (candidates size) with
  | .error e => .error e
  | .ok (fs, bb) =>
    let w : ℤ := bb.x1 - bb.x0
    let h : ℤ := bb.y1 - bb.y0
    let x2 : ℤ := (size : ℤ) - w - 2 * bb.x0
    let y2 : ℤ := (size : ℤ) - h - 2 * bb.y0
    match env.drawText fs with
    | some e => .error e
    | none => .ok (DrawCmd.text x2 y2 "EZ" colorFill fs 1 colorStroke)

/-- Warning line printed by the except branch. -/
def warnMsg (e : String) : String := "Warning: Could not add text to icon: " ++ e

/-- create_regular_icon: base canvas, then the try block; any failure in
the text stage is caught, a warning is recorded, and the base canvas is
returned unchanged.  Result: the canvas and the warnings printed.  (The
is_dismissed parameter of the source is unused in its body and omitted.) -/
def create_regular_icon (env : FontEnv) (size : ℕ) : Canvas × List String :=
  match textStage env size with
  | .ok cmd => (⟨size, (create_icon_base size).cmds ++ [cmd]⟩, [])
  | .error e => (create_icon_base size, [warnMsg e])

/-- Line inset from create_dismissed_icon: size // 4. -/
def linePad (size : ℕ) : ℕ := size / 4

/-- Line width from create_dismissed_icon: max(2, size // 16). -/
def lineWidth (size : ℕ) : ℕ := max 2 (size / 16)

/-- create_dismissed_icon: the regular icon plus one diagonal line from
(size // 4, size // 4) to (size - size // 4, size - size // 4), color
dc3545, width max(2, size // 16), curved joints. -/
def create_dismissed_icon (env : FontEnv) (size : ℕ) : Canvas × List String :=
  let r := create_regular_icon env size
  (⟨size, r.1.cmds ++ [DrawCmd.line ((linePad size : ℕ) : ℤ) ((linePad size : ℕ) : ℤ)
      ((size : ℤ) - ((linePad size : ℕ) : ℤ)) ((size : ℤ) - ((linePad size : ℕ) : ℤ))
      colorLine (lineWidth size) Joint.curve]⟩, r.2)

/-- Ellipse coverage: a pixel is painted iff it lies inside the inclusive
bounding box and inside the inscribed ellipse (the library documents the
bounding box as inclusive of both endpoints).  The standard inequality
(px - cx)^2 / rx^2 + (py - cy)^2 / ry^2 <= 1 with cx = (x0 + x1) / 2,
rx = (x1 - x0) / 2 is multiplied through by 16 rx^2 ry^2 to stay
integral. -/
def inEllipseB (x0 y0 x1 y1 : ℤ) (px py : ℕ) : Bool :=
  decide (x0 ≤ (px : ℤ)) && decide ((px : ℤ) ≤ x1) &&
  decide (y0 ≤ (py : ℤ)) && decide ((py : ℤ) ≤ y1) &&
  decide ((2 * (px : ℤ) - (x0 + x1)) ^ 2 * (y1 - y0) ^ 2
      + (2 * (py : ℤ) - (y0 + y1)) ^ 2 * (x1 - x0) ^ 2
      ≤ (x1 - x0) ^ 2 * (y1 - y0) ^ 2)

/-- Thick-segment coverage: a pixel is painted by a line of width w iff its
distance to the segment from (ax, ay) to (bx, bY) is at most w / 2.  The
projection parameter t = clamp((P - A) . d / |d|^2, 0, 1) is handled by
cases and every inequality is cleared of denominators. -/
def segCoverB (ax ay bx bY : ℤ) (w : ℕ) (px py : ℤ) : Bool :=
  let dx := bx - ax
  let dy := bY - ay
  let l := dx ^ 2 + dy ^ 2
  let q := (px - ax) * dx + (py - ay) * dy
  if q ≤ 0 ∨ l = 0 then
    decide (4 * ((px - ax) ^ 2 + (py - ay) ^ 2) ≤ (w : ℤ) ^ 2)
  else if l ≤ q then
    decide (4 * ((px - bx) ^ 2 + (py - bY) ^ 2) ≤ (w : ℤ) ^ 2)
  else
    decide (4 * (l * ((px - ax) ^ 2 + (py - ay) ^ 2) - q ^ 2) ≤ l * (w : ℤ) ^ 2)

/-- Interpret one drawing command at one pixel: a command either paints the
pixel with one of its own (opaque) colors or leaves it unchanged. -/
def applyCmd (env : FontEnv) (px py : ℕ) (prev : Color) : DrawCmd → Color
  | .ellipse x0 y0 x1 y1 fill =>
    if inEllipseB x0 y0 x1 y1 px py then fill else prev
  | .text tx2 ty2 _ fill fsz _ sfill =>
    match env.cover fsz tx2 ty2 px py with
    | some true => fill
    | some false => sfill
    | none => prev
  | .line x0 y0 x1 y1 fill w _ =>
    if segCoverB x0 y0 x1 y1 w (px : ℤ) (py : ℤ) then fill else prev

/-- Rasterize a canvas at one pixel: start transparent, apply the commands
in order. -/
def rasterize (env : FontEnv) (c : Canvas) (px py : ℕ) : Color :=
  c.cmds.foldl (applyCmd env px py) colorTransparent

/-- Coverage of the dismissal overlay line for a given size, exactly as the
rasterizer evaluates the line command that create_dismissed_icon issues. -/
def dismissLineB (size px py : ℕ) : Bool :=
  segCoverB ((linePad size : ℕ) : ℤ) ((linePad size : ℕ) : ℤ)
    ((size : ℤ) - ((linePad size : ℕ) : ℤ)) ((size : ℤ) - ((linePad size : ℕ) : ℤ))
    (lineWidth size) (px : ℤ) (py : ℤ)

/-- An encoded PNG file: declared dimensions and the (losslessly encoded)
content of the canvas it came from. -/
structure PngFile where
  width : ℕ
  height : ℕ
  payload : List DrawCmd
deriving DecidableEq

/-- Deterministic PNG encoding of a canvas: declared dimensions are the
canvas size; no timestamps or randomness enter the bytes. -/
def pngEncode (c : Canvas) : PngFile := ⟨c.size, c.size, c.cmds⟩

/-- Output path of a regular icon. -/
def iconName (size : ℕ) : String := "images/icon-" ++ toString size ++ ".png"

/-- Output path of a dismissed icon. -/
def dismissedName (size : ℕ) : String :=
  "images/icon-dismissed-" ++ toString size ++ ".png"

/-- The filesystem state main runs against: existing directories and the
written files, newest first (a later write of the same path shadows an
older one, modelling silent overwrite). -/
structure FS where
  dirs : List String
  files : List (String × PngFile)

/-- An initially empty filesystem. -/
def emptyFS : FS := ⟨[], []⟩

/-- os.makedirs(d, exist_ok=True): create the directory if absent, succeed
silently if it already exists. -/
def makedirs (d : String) (fs : FS) : FS :=
  if d ∈ fs.dirs then fs else ⟨d :: fs.dirs, fs.files⟩

/-- icon.save(path): write the file, silently overwriting any previous one. -/
def writeFile (n : String) (f : PngFile) (fs : FS) : FS :=
  ⟨fs.dirs, (n, f) :: fs.files⟩

/-- Look a path up in the written files (first, i.e. newest, match wins). -/
def lookupFile (n : String) : List (String × PngFile) → Option PngFile
  | [] => none
  | (k, f) :: t => if n = k then some f else lookupFile n t

/-- Regular sizes the driver iterates over. -/
def sizesRegular : List ℕ := [16, 32, 48, 128]

/-- Dismissed sizes the driver iterates over. -/
def sizesDismissed : List ℕ := [16, 32]

/-- Models main: ensure the output directory, then write the four regular icons
and the two dismissed icons in driver order. -/
def mainGen (env : FontEnv) (fs : FS) : FS :=
  let fs1 := makedirs "images" fs
  let fs2 := sizesRegular.foldl
    (fun a s => writeFile (iconName s) (pngEncode (create_regular_icon env s).1) a) fs1
  sizesDismissed.foldl
    (fun a s => writeFile (dismissedName s) (pngEncode (create_dismissed_icon env s).1) a) fs2

/-- The six output paths, listed newest-written first, matching the order
they end up in the file list. -/
def sixNames : List String :=
  [dismissedName 32, dismissedName 16, iconName 128, iconName 48,
   iconName 32, iconName 16]

/-- A measurement result used by the concrete environments below. -/
def defaultBB : BBox := ⟨0, 0, 10, 10⟩

/-- A concrete well-behaved font environment: every measurement returns
defaultBB, drawing never fails, glyphs cover no pixel. -/
def defaultEnv : FontEnv :=
  ⟨fun _ => .ok defaultBB, fun _ => none, fun _ _ _ _ _ => none⟩

/-- A font environment whose measurement always fails. -/
def envFail : FontEnv :=
  ⟨fun _ => .error "font resource unavailable", fun _ => none, fun _ _ _ _ _ => none⟩

/-- A huge measurement that can never fit. -/
def bigBB : BBox := ⟨0, 0, 1000, 1000⟩

/-- A font environment whose measurements are too large to ever fit. -/
def envNoFit : FontEnv :=
  ⟨fun _ => .ok bigBB, fun _ => none, fun _ _ _ _ _ => none⟩

/-- A nonempty filesystem used to exercise run-state independence. -/
def altFS : FS := ⟨["images"], [(iconName 16, pngEncode ⟨16, []⟩)]⟩

/-- The start value the spec text ascribes to the search loop,
round(size * 1.1), written from the spec wording for comparison with the
code start intTimes11 (rounding half up; half-to-even coincides on every
size where the two models are compared). -/
def claimRoundMul11 (size : ℕ) : ℕ := (11 * size + 5) / 10

/-- Candidate list the spec text describes: descending from
round(size * 1.1) to 5 inclusive.  Written from the spec wording for
comparison with candidates. -/
def specCandidates (size : ℕ) : List ℕ :=
  (List.range' 5 (claimRoundMul11 size - 4)).reverse

/-- Recognizer for line commands. -/
def isLineCmd : DrawCmd → Bool
  | .line _ _ _ _ _ _ _ => true
  | _ => false

/-- The first candidate, in list order, whose measurement under m fits at
the given size; none if no candidate fits. -/
def firstFit (s : ℕ) (m : ℕ → BBox) : List ℕ → Option ℕ
  | [] => none
  | k :: t => if fits s (m k) then some k else firstFit s m t

/-- Helper: the canvas returned by create_regular_icon always has the
requested size. -/
lemma regular_size (env : FontEnv) (s : ℕ) :
    (create_regular_icon env s).1.size = s := by
  rcases ht : textStage env s with e | cmd <;>
    simp [create_regular_icon, ht, create_icon_base]

/-- Helper: a successful text stage always produces a text command with the
literal EZ, the blue fill, stroke width 1 and the dark blue stroke. -/
lemma textStage_ok_shape (env : FontEnv) (s : ℕ) (cmd : DrawCmd)
    (h : textStage env s = .ok cmd) :
    ∃ x2 y2 fs, cmd = DrawCmd.text x2 y2 "EZ" colorFill fs 1 colorStroke := by
  rcases hfl : fitLoop env s (candidates s) with e | p
  · simp only [textStage, hfl] at h
    exact Except.noConfusion h
  · obtain ⟨fs, bb⟩ := p
    simp only [textStage, hfl] at h
    rcases hdt : env.drawText fs with _ | e
    · simp only [hdt, Except.ok.injEq] at h
      exact ⟨_, _, fs, h.symm⟩
    · simp only [hdt] at h
      exact Except.noConfusion h

/-- C1: for every size s in {16, 32, 48, 128}, create_regular_icon returns
a raster of exactly s x s pixels whose pixel at the exact center
(s / 2, s / 2) is non-transparent (alpha > 0): the white circle covers the
center and any text pixel drawn over it is one of the two opaque text
colors. -/
theorem regular_icon_center_opaque (env : FontEnv) (s : ℕ)
    (h : s = 16 ∨ s = 32 ∨ s = 48 ∨ s = 128) :
    (create_regular_icon env s).1.size = s ∧
    0 < alpha (rasterize env (create_regular_icon env s).1 (s / 2) (s / 2)) := by
  refine ⟨regular_size env s, ?_⟩
  have hell : inEllipseB (bgPadding s) (bgPadding s) ((s : ℤ) - (bgPadding s : ℤ))
      ((s : ℤ) - (bgPadding s : ℤ)) (s / 2) (s / 2) = true := by
    rcases h with rfl | rfl | rfl | rfl <;> decide
  rcases ht : textStage env s with e | cmd
  · simp [create_regular_icon, ht, rasterize, create_icon_base, applyCmd, hell,
      colorWhite, alpha]
  · obtain ⟨x2, y2, fs, rfl⟩ := textStage_ok_shape env s cmd ht
    rcases hc : env.cover fs x2 y2 (s / 2) (s / 2) with _ | b
    · simp [create_regular_icon, ht, rasterize, create_icon_base, applyCmd, hell,
        hc, colorWhite, alpha]
    · cases b <;>
        simp [create_regular_icon, ht, rasterize, create_icon_base, applyCmd, hell,
          hc, colorStroke, colorFill, alpha]

/-- Witness for C1 at size 16 with the concrete default environment. -/
theorem regular_icon_center_opaque_witness :
    (create_regular_icon defaultEnv 16).1.size = 16 ∧
    0 < alpha (rasterize defaultEnv (create_regular_icon defaultEnv 16).1 (16 / 2) (16 / 2)) :=
  regular_icon_center_opaque defaultEnv 16 (Or.inl rfl)

/-- C2: for sizes 16 and 32, the dismissed icon agrees with the regular
icon at every pixel off the drawn diagonal line, and pixels on the line
carry the overlay color dc3545: the overlay only adds the line, it never
removes any of the base drawing. -/
theorem dismissed_overlay_additive (env : FontEnv) (s px py : ℕ)
    (_h : s = 16 ∨ s = 32) :
    (dismissLineB s px py = true →
      rasterize env (create_dismissed_icon env s).1 px py = colorLine) ∧
    (dismissLineB s px py = false →
      rasterize env (create_dismissed_icon env s).1 px py
        = rasterize env (create_regular_icon env s).1 px py) := by
  have key : rasterize env (create_dismissed_icon env s).1 px py
      = if dismissLineB s px py then colorLine
        else rasterize env (create_regular_icon env s).1 px py := by
    simp only [create_dismissed_icon, rasterize, List.foldl_append, List.foldl_cons,
      List.foldl_nil, applyCmd, dismissLineB]
  constructor <;> intro hb <;> simp [key, hb]

/-- Witness for C2 at size 16: pixel (8, 8) lies on the overlay line and is
painted the overlay color. -/
theorem dismissed_overlay_additive_witness :
    dismissLineB 16 8 8 = true ∧
    rasterize defaultEnv (create_dismissed_icon defaultEnv 16).1 8 8 = colorLine :=
  ⟨by decide, (dismissed_overlay_additive defaultEnv 16 8 8 (Or.inl rfl)).1 (by decide)⟩

/-- C4: any failure inside the text stage (fit search, measurement, or
drawing) is caught: create_regular_icon records exactly one warning naming
the failure and returns the background-only canvas; no exception reaches
the caller (the function is total into Canvas by construction). -/
theorem text_failure_caught (env : FontEnv) (s : ℕ) (e : String)
    (h : textStage env s = .error e) :
    create_regular_icon env s = (create_icon_base s, [warnMsg e]) := by
  simp [create_regular_icon, h]

/-- Witness for C4: a font environment whose measurement always fails still
yields the background canvas plus a warning at size 16. -/
theorem text_failure_caught_witness :
    textStage envFail 16 = .error "font resource unavailable" ∧
    create_regular_icon envFail 16
      = (create_icon_base 16, [warnMsg "font resource unavailable"]) :=
  ⟨rfl, text_failure_caught envFail 16 "font resource unavailable" rfl⟩

/-- C10: for every positive size at most 4, int(size * 1.1) is at most 4,
so the candidate list is empty, the loop body never runs, the later use of
the loop variables fails, the broad handler catches it, and the function
returns the background-only canvas with a warning and no escaping
exception. -/
theorem tiny_size_textless (env : FontEnv) (s : ℕ) (h1 : 0 < s) (h2 : s ≤ 4) :
    intTimes11 s ≤ 4 ∧ candidates s = [] ∧
    create_regular_icon env s = (create_icon_base s, [warnMsg nameErrorMsg]) := by
  interval_cases s <;> exact ⟨by decide, rfl, rfl⟩

/-- Witness for C10 at size 3. -/
theorem tiny_size_textless_witness :
    (0 < 3 ∧ 3 ≤ 4) ∧ intTimes11 3 ≤ 4 ∧ candidates 3 = [] ∧
    create_regular_icon defaultEnv 3 = (create_icon_base 3, [warnMsg nameErrorMsg]) :=
  ⟨by decide, tiny_size_textless defaultEnv 3 (by decide) (by decide)⟩

/-- Helper: the regular icon never contains a line command. -/
lemma regular_no_line (env : FontEnv) (s : ℕ) :
    (create_regular_icon env s).1.cmds.filter isLineCmd = [] := by
  rcases ht : textStage env s with e | cmd
  · simp [create_regular_icon, ht, create_icon_base, isLineCmd]
  · obtain ⟨x2, y2, fs, rfl⟩ := textStage_ok_shape env s cmd ht
    simp [create_regular_icon, ht, create_icon_base, isLineCmd]

/-- C7 (amended): create_dismissed_icon draws exactly one line, from
(size // 4, size // 4) to (size - size // 4, size - size // 4) with
integer floor division (equal to the exact size / 4 only when 4 divides
size, which holds for both driver sizes), color dc3545, width
max(2, size // 16), curved joints. -/
theorem dismissed_line_single_cmd (env : FontEnv) (s : ℕ) :
    (create_dismissed_icon env s).1.cmds.filter isLineCmd
      = [DrawCmd.line ((linePad s : ℕ) : ℤ) ((linePad s : ℕ) : ℤ)
          ((s : ℤ) - ((linePad s : ℕ) : ℤ)) ((s : ℤ) - ((linePad s : ℕ) : ℤ))
          colorLine (lineWidth s) Joint.curve]
    ∧ linePad s = s / 4 ∧ lineWidth s = max 2 (s / 16) := by
  refine ⟨?_, rfl, rfl⟩
  simp [create_dismissed_icon, List.filter_append, regular_no_line, isLineCmd]

/-- Counterexample to C7 as stated: at size 10 the single drawn line starts
at coordinate 2 = 10 // 4, but the exact size / 4 is 10 / 4 = 2.5, and the
end coordinate is 8 rather than 7.5; the inequalities are stated cleared
of the denominator 4. -/
theorem dismissed_line_endpoint_cex :
    (create_dismissed_icon defaultEnv 10).1.cmds.filter isLineCmd
      = [DrawCmd.line 2 2 8 8 colorLine 2 Joint.curve]
    ∧ 4 * (linePad 10 : ℤ) ≠ 10
    ∧ 4 * ((10 : ℤ) - (linePad 10 : ℤ)) ≠ 3 * 10 :=
  ⟨by decide, by decide, by decide⟩

/-- Helper: membership in the candidate list is exactly the integer range
from 5 up to int(size * 1.1). -/
lemma candidates_mem (s n : ℕ) :
    n ∈ candidates s ↔ 5 ≤ n ∧ n ≤ intTimes11 s := by
  simp only [candidates, List.mem_reverse, List.mem_range'_1]
  omega

/-- Helper: one-step unfolding of the loop on a nonempty candidate list. -/
lemma fitLoop_cons (env : FontEnv) (s k : ℕ) (rest : List ℕ) :
    fitLoop env s (k :: rest)
      = match env.measure k with
        | .error e => .error e
        | .ok bb =>
          if fits s bb then .ok (k, bb)
          else
            match rest with
            | [] => .ok (k, bb)
            | _ :: _ => fitLoop env s rest := rfl

/-- Helper: when every measurement succeeds, the loop stops at the first
candidate, in list order, whose measurement fits. -/
lemma fitLoop_first_fit (env : FontEnv) (s : ℕ) (m : ℕ → BBox) :
    ∀ l : List ℕ, (∀ k, k ∈ l → env.measure k = .ok (m k)) →
    ∀ j, firstFit s m l = some j →
    fitLoop env s l = .ok (j, m j) := by
  intro l
  induction l with
  | nil => intro _ j hj; simp [firstFit] at hj
  | cons a t ih =>
    intro hm j hj
    have hma : env.measure a = .ok (m a) := hm a (List.mem_cons_self a t)
    cases hf : fits s (m a) with
    | true =>
      simp only [firstFit, hf, if_true, Option.some.injEq] at hj
      subst hj
      rw [fitLoop_cons, hma]
      simp [hf]
    | false =>
      simp only [firstFit, hf, if_false] at hj
      have hne : t ≠ [] := by rintro rfl; simp [firstFit] at hj
      obtain ⟨b, t', rfl⟩ := List.exists_cons_of_ne_nil hne
      have htail := ih (fun k hk => hm k (List.mem_cons_of_mem a hk)) j hj
      rw [fitLoop_cons, hma]
      simp [hf, htail]

/-- C3 (amended): the text-fit search iterates the candidate font sizes
from int(size * 1.1) (float truncation, not rounding) down to 5 by steps
of 1, uses padding max(1, size // 10), and accepts the first candidate in
that order whose measured width and height are both at most
size - 2 * padding. -/
theorem fit_search_first_fit (env : FontEnv) (s : ℕ) (m : ℕ → BBox)
    (hm : ∀ k, k ∈ candidates s → env.measure k = .ok (m k))
    (j : ℕ) (hj : firstFit s m (candidates s) = some j) :
    fitLoop env s (candidates s) = .ok (j, m j)
    ∧ (∀ n, n ∈ candidates s ↔ 5 ≤ n ∧ n ≤ intTimes11 s)
    ∧ textPadding s = max 1 (s / 10)
    ∧ (∀ bb : BBox, fits s bb = true ↔
        bb.x1 - bb.x0 ≤ (s : ℤ) - 2 * (textPadding s : ℤ)
        ∧ bb.y1 - bb.y0 ≤ (s : ℤ) - 2 * (textPadding s : ℤ)) := by
  refine ⟨fitLoop_first_fit env s m (candidates s) hm j hj,
    fun n => candidates_mem s n, rfl, fun bb => ?_⟩
  simp [fits]

/-- Witness for C3 (amended) at size 16 with the default environment: the
first candidate 17 already fits. -/
theorem fit_search_first_fit_witness :
    fitLoop defaultEnv 16 (candidates 16) = .ok (17, defaultBB)
    ∧ (∀ n, n ∈ candidates 16 ↔ 5 ≤ n ∧ n ≤ intTimes11 16)
    ∧ textPadding 16 = max 1 (16 / 10)
    ∧ (∀ bb : BBox, fits 16 bb = true ↔
        bb.x1 - bb.x0 ≤ (16 : ℤ) - 2 * (textPadding 16 : ℤ)
        ∧ bb.y1 - bb.y0 ≤ (16 : ℤ) - 2 * (textPadding 16 : ℤ)) :=
  fit_search_first_fit defaultEnv 16 (fun _ => defaultBB) (fun _ _ => rfl) 17 rfl

/-- Counterexample to C3 as stated: at size 16 the code iterates from
int(16 * 1.1) = 17, not from round(16 * 1.1) = 18, so the candidate list
differs from the spec-described one. -/
theorem fit_search_start_cex : candidates 16 ≠ specCandidates 16 := by decide

/-- Helper: if no candidate fits (and all measurements succeed), the loop
falls through holding the values of its last iteration. -/
lemma fitLoop_nofit_last (env : FontEnv) (s : ℕ) (m : ℕ → BBox) :
    ∀ l : List ℕ, ∀ a : ℕ,
    (∀ k, k ∈ l ++ [a] → env.measure k = .ok (m k)) →
    (∀ k, k ∈ l ++ [a] → fits s (m k) = false) →
    fitLoop env s (l ++ [a]) = .ok (a, m a) := by
  intro l
  induction l with
  | nil =>
    intro a hm hf
    have hma := hm a (by simp)
    have hfa := hf a (by simp)
    simp [fitLoop, hma, hfa]
  | cons b t ih =>
    intro a hm hf
    have hmb := hm b (by simp)
    have hfb : fits s (m b) = false := hf b (by simp)
    have htail : fitLoop env s (t ++ [a]) = .ok (a, m a) :=
      ih a (fun k hk => hm k (by rw [List.cons_append]; exact List.mem_cons_of_mem b hk))
        (fun k hk => hf k (by rw [List.cons_append]; exact List.mem_cons_of_mem b hk))
    have hne : t ++ [a] ≠ [] := by simp
    obtain ⟨c, t', hct⟩ := List.exists_cons_of_ne_nil hne
    rw [List.cons_append, hct]
    rw [hct] at htail
    rw [fitLoop_cons, hmb]
    simp [hfb, htail]

/-- Helper: for size at least 5 the candidate list is nonempty and ends
with the floor value 5. -/
lemma candidates_concat (s : ℕ) (h5 : 5 ≤ s) :
    candidates s = (List.range' 6 (intTimes11 s - 5)).reverse ++ [5] := by
  have hstart : 5 ≤ intTimes11 s := by unfold intTimes11; omega
  have h : intTimes11 s - 4 = (intTimes11 s - 5) + 1 := by omega
  rw [candidates, h, List.range'_succ, List.reverse_cons]

/-- C9 (amended): for every size at least 5 (so that the candidate range is
nonempty), if no tried candidate satisfies the fit condition, the loop
exits at its floor, font size 5, and the text is still drawn at that size
with the usual colors; this is not treated as an error (no warning). -/
theorem no_fit_floor_draws_at_5 (env : FontEnv) (s : ℕ) (m : ℕ → BBox)
    (h5 : 5 ≤ s)
    (hm : ∀ k, k ∈ candidates s → env.measure k = .ok (m k))
    (hnofit : ∀ k, k ∈ candidates s → fits s (m k) = false)
    (hdraw : env.drawText 5 = none) :
    fitLoop env s (candidates s) = .ok (5, m 5)
    ∧ (create_regular_icon env s).2 = []
    ∧ (create_regular_icon env s).1.cmds
      = (create_icon_base s).cmds
        ++ [DrawCmd.text ((s : ℤ) - ((m 5).x1 - (m 5).x0) - 2 * (m 5).x0)
              ((s : ℤ) - ((m 5).y1 - (m 5).y0) - 2 * (m 5).y0)
              "EZ" colorFill 5 1 colorStroke] := by
  have hc := candidates_concat s h5
  have hfl : fitLoop env s (candidates s) = .ok (5, m 5) := by
    rw [hc]
    exact fitLoop_nofit_last env s m _ 5 (by rw [← hc]; exact hm)
      (by rw [← hc]; exact hnofit)
  have hts : textStage env s
      = .ok (DrawCmd.text ((s : ℤ) - ((m 5).x1 - (m 5).x0) - 2 * (m 5).x0)
          ((s : ℤ) - ((m 5).y1 - (m 5).y0) - 2 * (m 5).y0)
          "EZ" colorFill 5 1 colorStroke) := by
    simp only [textStage, hfl, hdraw]
  exact ⟨hfl, by simp [create_regular_icon, hts], by simp [create_regular_icon, hts]⟩

/-- Witness for C9 (amended) at size 5 with measurements too large to fit. -/
theorem no_fit_floor_draws_at_5_witness :
    fitLoop envNoFit 5 (candidates 5) = .ok (5, bigBB)
    ∧ (create_regular_icon envNoFit 5).2 = []
    ∧ (create_regular_icon envNoFit 5).1.cmds
      = (create_icon_base 5).cmds
        ++ [DrawCmd.text ((5 : ℤ) - (bigBB.x1 - bigBB.x0) - 2 * bigBB.x0)
              ((5 : ℤ) - (bigBB.y1 - bigBB.y0) - 2 * bigBB.y0)
              "EZ" colorFill 5 1 colorStroke] :=
  no_fit_floor_draws_at_5 envNoFit 5 (fun _ => bigBB) (by decide)
    (fun _ _ => rfl) (fun _ _ => rfl) rfl

/-- Counterexample to C9 as stated for every positive size: at size 4 the
candidate range is empty, so no candidate satisfies the fit vacuously, yet
no text is drawn at font size 5 (or at all): the function returns the
background-only canvas with a warning. -/
theorem no_fit_floor_cex :
    candidates 4 = []
    ∧ (create_regular_icon defaultEnv 4).1.cmds = (create_icon_base 4).cmds
    ∧ (create_regular_icon defaultEnv 4).2 = [warnMsg nameErrorMsg] :=
  ⟨rfl, rfl, rfl⟩

/-- Helper: whenever the background padding is 1 and the size is even, the
drawn circle paints the pixel (size - 1, size / 2), which lies in the
outermost column of the canvas: the inclusive far edge of the bounding box
makes the circle touch the bottom/right border. -/
lemma base_touches_right_border (env : FontEnv) (s : ℕ) (hs : 2 ≤ s)
    (hp : bgPadding s = 1) (hev : s % 2 = 0) :
    rasterize env (create_icon_base s) (s - 1) (s / 2) = colorWhite := by
  have hb : inEllipseB (bgPadding s) (bgPadding s) ((s : ℤ) - (bgPadding s : ℤ))
      ((s : ℤ) - (bgPadding s : ℤ)) (s - 1) (s / 2) = true := by
    simp only [inEllipseB, hp, Nat.cast_one, Bool.and_eq_true, decide_eq_true_eq]
    refine ⟨⟨⟨⟨?_, ?_⟩, ?_⟩, ?_⟩, ?_⟩
    · omega
    · omega
    · omega
    · omega
    · have hA : 2 * ((s - 1 : ℕ) : ℤ) - (1 + ((s : ℤ) - 1)) = ((s : ℤ) - 1) - 1 := by
        omega
      have hC : 2 * ((s / 2 : ℕ) : ℤ) - (1 + ((s : ℤ) - 1)) = 0 := by omega
      rw [hA, hC]
      simp
  simp [rasterize, create_icon_base, applyCmd, hb]

/-- C8 (amended): the element paddings are max(1, size // 16) for the
background and max(1, size // 10) for the text, each at least 1 pixel; all
background content lies within the inclusive box [p, size - p] in both
coordinates (so it never touches row or column 0); an accepted fit centers
the measured text box inside the text-padded interior with margin at least
padding on each side, horizontally and vertically (stated with doubled
coordinates).  But because the box edge size - p is itself inclusive, the
circle touches the bottom/right border pixel (size - 1, size / 2) whenever
p = 1 and the size is even (so in particular at driver size 16), refuting
the original no-border-contact claim (see the counterexample). -/
theorem padded_interior (env : FontEnv) (s : ℕ) (hs : 2 ≤ s) :
    bgPadding s = max 1 (s / 16)
    ∧ textPadding s = max 1 (s / 10)
    ∧ 1 ≤ bgPadding s ∧ 1 ≤ textPadding s
    ∧ (∀ px py : ℕ, rasterize env (create_icon_base s) px py ≠ colorTransparent →
        (bgPadding s : ℤ) ≤ (px : ℤ) ∧ (px : ℤ) ≤ (s : ℤ) - (bgPadding s : ℤ)
        ∧ (bgPadding s : ℤ) ≤ (py : ℤ) ∧ (py : ℤ) ≤ (s : ℤ) - (bgPadding s : ℤ))
    ∧ (∀ j bb, fitLoop env s (candidates s) = .ok (j, bb) → fits s bb = true →
        (2 * (textPadding s : ℤ) ≤ (s : ℤ) - (bb.x1 - bb.x0)
          ∧ (s : ℤ) + (bb.x1 - bb.x0) ≤ 2 * ((s : ℤ) - (textPadding s : ℤ)))
        ∧ (2 * (textPadding s : ℤ) ≤ (s : ℤ) - (bb.y1 - bb.y0)
          ∧ (s : ℤ) + (bb.y1 - bb.y0) ≤ 2 * ((s : ℤ) - (textPadding s : ℤ))))
    ∧ (bgPadding s = 1 → s % 2 = 0 →
        rasterize env (create_icon_base s) (s - 1) (s / 2) = colorWhite) := by
  refine ⟨rfl, rfl, le_max_left 1 _, le_max_left 1 _, ?_, ?_,
    fun hp hev => base_touches_right_border env s hs hp hev⟩
  · intro px py hne
    cases hb : inEllipseB (bgPadding s) (bgPadding s) ((s : ℤ) - (bgPadding s : ℤ))
        ((s : ℤ) - (bgPadding s : ℤ)) px py with
    | false =>
      exfalso
      apply hne
      simp [rasterize, create_icon_base, applyCmd, hb]
    | true =>
      simp only [inEllipseB, Bool.and_eq_true, decide_eq_true_eq] at hb
      exact ⟨hb.1.1.1.1, hb.1.1.1.2, hb.1.1.2, hb.1.2⟩
  · intro j bb _ hfit
    simp only [fits, Bool.and_eq_true, decide_eq_true_eq] at hfit
    refine ⟨⟨?_, ?_⟩, ?_, ?_⟩ <;> omega

/-- Witness for C8 (amended) at size 16. -/
theorem padded_interior_witness :
    bgPadding 16 = max 1 (16 / 16)
    ∧ textPadding 16 = max 1 (16 / 10)
    ∧ 1 ≤ bgPadding 16 ∧ 1 ≤ textPadding 16
    ∧ (∀ px py : ℕ, rasterize defaultEnv (create_icon_base 16) px py ≠ colorTransparent →
        (bgPadding 16 : ℤ) ≤ (px : ℤ) ∧ (px : ℤ) ≤ (16 : ℤ) - (bgPadding 16 : ℤ)
        ∧ (bgPadding 16 : ℤ) ≤ (py : ℤ) ∧ (py : ℤ) ≤ (16 : ℤ) - (bgPadding 16 : ℤ))
    ∧ (∀ j bb, fitLoop defaultEnv 16 (candidates 16) = .ok (j, bb) → fits 16 bb = true →
        (2 * (textPadding 16 : ℤ) ≤ (16 : ℤ) - (bb.x1 - bb.x0)
          ∧ (16 : ℤ) + (bb.x1 - bb.x0) ≤ 2 * ((16 : ℤ) - (textPadding 16 : ℤ)))
        ∧ (2 * (textPadding 16 : ℤ) ≤ (16 : ℤ) - (bb.y1 - bb.y0)
          ∧ (16 : ℤ) + (bb.y1 - bb.y0) ≤ 2 * ((16 : ℤ) - (textPadding 16 : ℤ))))
    ∧ (bgPadding 16 = 1 → 16 % 2 = 0 →
        rasterize defaultEnv (create_icon_base 16) (16 - 1) (16 / 2) = colorWhite) :=
  padded_interior defaultEnv 16 (by decide)

/-- Counterexample to C8 as stated: at size 16 the background padding is 1
and the finished regular canvas has an opaque (white) pixel at (15, 8),
which lies in the outer 1-pixel border (column 15 = 16 - 1): the circle
does touch the border. -/
theorem padded_interior_cex :
    rasterize defaultEnv (create_regular_icon defaultEnv 16).1 15 8 = colorWhite
    ∧ colorWhite ≠ colorTransparent ∧ (15 : ℕ) = 16 - 1 :=
  ⟨by decide, by decide, rfl⟩

/-- Helper: ensuring the directory never changes the file list. -/
lemma makedirs_files (d : String) (fs : FS) : (makedirs d fs).files = fs.files := by
  unfold makedirs
  split <;> rfl

/-- Helper: after makedirs the directory exists, whether or not it already
did (exist_ok semantics: no failure either way). -/
lemma makedirs_mem (d : String) (fs : FS) : d ∈ (makedirs d fs).dirs := by
  unfold makedirs
  split
  · assumption
  · exact List.mem_cons_self d fs.dirs

/-- Helper: the writes do not touch the directory list. -/
lemma mainGen_dirs (env : FontEnv) (fs : FS) :
    (mainGen env fs).dirs = (makedirs "images" fs).dirs := by
  simp [mainGen, sizesRegular, sizesDismissed, writeFile]

/-- Helper: the file list after a run is exactly the six fresh outputs,
newest first, on top of the previous file list. -/
lemma mainGen_files (env : FontEnv) (fs : FS) :
    (mainGen env fs).files =
      (dismissedName 32, pngEncode (create_dismissed_icon env 32).1) ::
      (dismissedName 16, pngEncode (create_dismissed_icon env 16).1) ::
      (iconName 128, pngEncode (create_regular_icon env 128).1) ::
      (iconName 48, pngEncode (create_regular_icon env 48).1) ::
      (iconName 32, pngEncode (create_regular_icon env 32).1) ::
      (iconName 16, pngEncode (create_regular_icon env 16).1) :: fs.files := by
  simp [mainGen, sizesRegular, sizesDismissed, writeFile, makedirs_files]

/-- Helper: lookup hits the head entry when the key matches. -/
lemma lookupFile_hit (n : String) (f : PngFile) (t : List (String × PngFile)) :
    lookupFile n ((n, f) :: t) = some f := by
  simp [lookupFile]

/-- Helper: lookup skips the head entry when the key differs. -/
lemma lookupFile_miss (n k : String) (f : PngFile) (t : List (String × PngFile))
    (h : ¬ n = k) : lookupFile n ((k, f) :: t) = lookupFile n t := by
  simp [lookupFile, h]

/-- Helper: a lookup succeeds exactly for the stored keys. -/
lemma lookupFile_isSome (n : String) :
    ∀ l : List (String × PngFile), (lookupFile n l).isSome ↔ n ∈ l.map Prod.fst := by
  intro l
  induction l with
  | nil => simp [lookupFile]
  | cons p t ih =>
    obtain ⟨k, f⟩ := p
    by_cases hk : n = k
    · subst hk
      simp [lookupFile]
    · simp [lookupFile, hk, ih]

/-- Helper: for each of the six output paths, the content found after a run
is a fixed function of the environment alone, independent of the starting
filesystem. -/
lemma lookup_mainGen_six (env : FontEnv) (fs : FS) (n : String) (hn : n ∈ sixNames) :
    lookupFile n (mainGen env fs).files
      = if n = dismissedName 32 then some (pngEncode (create_dismissed_icon env 32).1)
        else if n = dismissedName 16 then some (pngEncode (create_dismissed_icon env 16).1)
        else if n = iconName 128 then some (pngEncode (create_regular_icon env 128).1)
        else if n = iconName 48 then some (pngEncode (create_regular_icon env 48).1)
        else if n = iconName 32 then some (pngEncode (create_regular_icon env 32).1)
        else some (pngEncode (create_regular_icon env 16).1) := by
  rw [mainGen_files]
  by_cases h1 : n = dismissedName 32
  · subst h1
    rw [lookupFile_hit, if_pos rfl]
  · rw [lookupFile_miss _ _ _ _ h1, if_neg h1]
    by_cases h2 : n = dismissedName 16
    · subst h2
      rw [lookupFile_hit, if_pos rfl]
    · rw [lookupFile_miss _ _ _ _ h2, if_neg h2]
      by_cases h3 : n = iconName 128
      · subst h3
        rw [lookupFile_hit, if_pos rfl]
      · rw [lookupFile_miss _ _ _ _ h3, if_neg h3]
        by_cases h4 : n = iconName 48
        · subst h4
          rw [lookupFile_hit, if_pos rfl]
        · rw [lookupFile_miss _ _ _ _ h4, if_neg h4]
          by_cases h5 : n = iconName 32
          · subst h5
            rw [lookupFile_hit, if_pos rfl]
          · rw [lookupFile_miss _ _ _ _ h5, if_neg h5]
            have h6 : n = iconName 16 := by
              simp only [sixNames, List.mem_cons, List.mem_singleton] at hn
              tauto
            subst h6
            rw [lookupFile_hit]

/-- Helper: run-state independence of the six outputs. -/
lemma lookup_main_indep (env : FontEnv) (fs1 fs2 : FS) (n : String)
    (hn : n ∈ sixNames) :
    lookupFile n (mainGen env fs1).files = lookupFile n (mainGen env fs2).files := by
  rw [lookup_mainGen_six env fs1 n hn, lookup_mainGen_six env fs2 n hn]

/-- Helper: the dismissed canvas also has the requested size. -/
lemma dismissed_size (env : FontEnv) (s : ℕ) :
    (create_dismissed_icon env s).1.size = s := rfl

/-- C5: a full run ensures the images directory (with no failure when it
already exists), writes exactly the six expected files, each encoded with
declared dimensions equal to its size suffix, leaves every other path
untouched, and a second run on the resulting state silently overwrites the
six outputs with identical content; starting from an empty filesystem the
stored paths are exactly the six names. -/
theorem main_end_to_end (env : FontEnv) (fs : FS) :
    "images" ∈ (mainGen env fs).dirs
    ∧ (∀ s, s ∈ sizesRegular →
        lookupFile (iconName s) (mainGen env fs).files
          = some (pngEncode (create_regular_icon env s).1)
        ∧ (pngEncode (create_regular_icon env s).1).width = s
        ∧ (pngEncode (create_regular_icon env s).1).height = s)
    ∧ (∀ s, s ∈ sizesDismissed →
        lookupFile (dismissedName s) (mainGen env fs).files
          = some (pngEncode (create_dismissed_icon env s).1)
        ∧ (pngEncode (create_dismissed_icon env s).1).width = s
        ∧ (pngEncode (create_dismissed_icon env s).1).height = s)
    ∧ (∀ n, n ∉ sixNames → lookupFile n (mainGen env fs).files = lookupFile n fs.files)
    ∧ (∀ n, n ∈ sixNames →
        lookupFile n (mainGen env (mainGen env fs)).files
          = lookupFile n (mainGen env fs).files)
    ∧ (∀ n, (lookupFile n (mainGen env emptyFS).files).isSome ↔ n ∈ sixNames) := by
  refine ⟨?_, ?_, ?_, ?_, ?_, ?_⟩
  · rw [mainGen_dirs]
    exact makedirs_mem _ _
  · intro s hs
    fin_cases hs <;>
      refine ⟨?_, by simp [pngEncode, regular_size], by simp [pngEncode, regular_size]⟩ <;>
      rw [lookup_mainGen_six env fs _ (by decide)]
    · rw [if_neg (by decide), if_neg (by decide), if_neg (by decide),
        if_neg (by decide), if_neg (by decide)]
    · rw [if_neg (by decide), if_neg (by decide), if_neg (by decide),
        if_neg (by decide), if_pos rfl]
    · rw [if_neg (by decide), if_neg (by decide), if_neg (by decide), if_pos rfl]
    · rw [if_neg (by decide), if_neg (by decide), if_pos rfl]
  · intro s hs
    fin_cases hs <;>
      refine ⟨?_, by simp [pngEncode, dismissed_size], by simp [pngEncode, dismissed_size]⟩ <;>
      rw [lookup_mainGen_six env fs _ (by decide)]
    · rw [if_neg (by decide), if_pos rfl]
    · rw [if_pos rfl]
  · intro n hn
    simp only [sixNames, List.mem_cons, List.mem_singleton, not_or] at hn
    rw [mainGen_files, lookupFile_miss _ _ _ _ hn.1, lookupFile_miss _ _ _ _ hn.2.1,
      lookupFile_miss _ _ _ _ hn.2.2.1, lookupFile_miss _ _ _ _ hn.2.2.2.1,
      lookupFile_miss _ _ _ _ hn.2.2.2.2.1, lookupFile_miss _ _ _ _ hn.2.2.2.2.2.1]
  · intro n hn
    exact lookup_main_indep env (mainGen env fs) fs n hn
  · intro n
    rw [lookupFile_isSome, mainGen_files]
    simp [sixNames, emptyFS]

/-- Witness for C5: the 16-pixel regular icon is found under its path with
matching declared dimensions after a run from the empty filesystem. -/
theorem main_end_to_end_witness :
    lookupFile (iconName 16) (mainGen defaultEnv emptyFS).files
      = some (pngEncode (create_regular_icon defaultEnv 16).1)
    ∧ (pngEncode (create_regular_icon defaultEnv 16).1).width = 16
    ∧ (pngEncode (create_regular_icon defaultEnv 16).1).height = 16 :=
  (main_end_to_end defaultEnv emptyFS).2.1 16 (by decide)

/-- C6: the generator is deterministic: under one and the same font
environment, runs started from any two filesystem states store
byte-identical content at each of the six output paths (nothing varying,
random or time-dependent enters the encoded bytes). -/
theorem generation_deterministic (env : FontEnv) (fs1 fs2 : FS) (n : String)
    (hn : n ∈ sixNames) :
    lookupFile n (mainGen env fs1).files = lookupFile n (mainGen env fs2).files :=
  lookup_main_indep env fs1 fs2 n hn

/-- Witness for C6 on the 16-pixel regular icon, from the empty filesystem
versus a filesystem that already holds a stale file at that path. -/
theorem generation_deterministic_witness :
    iconName 16 ∈ sixNames
    ∧ lookupFile (iconName 16) (mainGen defaultEnv emptyFS).files
      = lookupFile (iconName 16) (mainGen defaultEnv altFS).files :=
  ⟨by decide, generation_deterministic defaultEnv emptyFS altFS (iconName 16) (by decide)⟩
